import Mathlib

/-!
Verification of the scoring engine of the engagement-survey app
(`src/app.py`): the banding function `get_score_level`, the scoring
function `calculate_scores`, and the interpretation lookup
`get_interpretation`, embedded shallowly over a model of Python dicts.

Scores are modelled as exact rationals (the Python code performs exact
division on small integers and applies no rounding in the engine; display
rounding is outside the scoring core).
-/

/-- A Python dict with natural-number keys and rational values:
a finite set of keys together with a valuation.  `val i` is only
meaningful for `i ∈ keys`. -/
structure PyDict where
  keys : Finset ℕ
  val : ℕ → ℚ

namespace PyDict

/-- `d[i]` as a Python dict access: `some (val i)` when the key is
present, `none` (KeyError) otherwise. -/
def get? (d : PyDict) (i : ℕ) : Option ℚ :=
  if i ∈ d.keys then some (d.val i) else none

/-- `len(d)`: number of keys. -/
def len (d : PyDict) : ℕ := d.keys.card

/-- `sum(d.values())`. -/
def valuesSum (d : PyDict) : ℚ := ∑ i in d.keys, d.val i

end PyDict

/-- The nine fixed item ids `1..9` accessed by `calculate_scores`
(union of `vigor_items`, `dedication_items`, `absorption_items`). -/
def ids9 : Finset ℕ := {1, 2, 3, 4, 5, 6, 7, 8, 9}

/-- The four scores returned by `calculate_scores` (the Python function
returns a dict with keys 活力/熱意/没頭/総合スコア; we model it as a
record with one field per key). -/
structure ScoreReport where
  vigor : ℚ
  dedication : ℚ
  absorption : ℚ
  total : ℚ
deriving DecidableEq, Repr

/-- `get_score_level` from `src/app.py` (lines 81-93): maps a score to a
(label, color) pair by an if/elif chain of strict upper bounds. -/
def get_score_level (score : ℚ) : String × String :=
  if score < 1 then ("非常に低い", "#e74c3c")
  else if score < 5/2 then ("低い", "#e67e22")
  else if score < 7/2 then ("やや低い", "#f39c12")
  else if score < 9/2 then ("平均的", "#3498db")
  else if score < 11/2 then ("高い", "#27ae60")
  else ("非常に高い", "#16a085")

/-- `calculate_scores` from `src/app.py` (lines 95-111).  Each dict
access `responses[i]` can raise KeyError, modelled by the `Option`
monad; the accesses happen in the order of the Python source
(vigor items 1,2,5, then dedication 3,4,7, then absorption 6,8,9,
then `sum(responses.values()) / len(responses)`). -/
def calculate_scores (responses : PyDict) : Option ScoreReport := do
  let v1 ← responses.get? 1
  let v2 ← responses.get? 2
  let v5 ← responses.get? 5
  let d3 ← responses.get? 3
  let d4 ← responses.get? 4
  let d7 ← responses.get? 7
  let a6 ← responses.get? 6
  let a8 ← responses.get? 8
  let a9 ← responses.get? 9
  pure { vigor := (v1 + v2 + v5) / 3
         dedication := (d3 + d4 + d7) / 3
         absorption := (a6 + a8 + a9) / 3
         total := responses.valuesSum / (responses.len : ℚ) }

/-- The `interpretations` dict literal of `get_interpretation` in
`src/app.py` (lines 185-216), as an association list keyed by the six
level labels.  The narrative values are the Japanese texts of the
source; the surrounding whitespace of the Python triple-quoted literals
is normalised to single newlines, which no theorem below depends on. -/
def interpretations : List (String × String) :=
  [("非常に低い", "ワークエンゲージメントが非常に低い状態です。仕事に対するエネルギーや意欲が\n著しく低下している可能性があります。職場環境や業務内容の見直し、\n上司や同僚との対話、専門家への相談を検討することをお勧めします。"),
   ("低い", "ワークエンゲージメントが低めの状態です。仕事への活力や熱意を\n取り戻すために、業務の優先順位の見直しや、達成感を得られる\n小さな目標設定から始めてみることをお勧めします。"),
   ("やや低い", "ワークエンゲージメントがやや低い状態です。仕事の意義や\nやりがいを再確認し、強みを活かせる業務に注力することで、\nエンゲージメントの向上が期待できます。"),
   ("平均的", "ワークエンゲージメントは平均的なレベルです。現状を維持しながら、\nより充実した仕事経験を得るために、新しいチャレンジや\nスキルアップの機会を探してみてはいかがでしょうか。"),
   ("高い", "ワークエンゲージメントが高い状態です。仕事に対して\nポジティブな感情を持ち、活力に満ちた状態と言えます。\nこの良い状態を維持するために、適度な休息も大切にしてください。"),
   ("非常に高い", "ワークエンゲージメントが非常に高い状態です。仕事に対して\n強い情熱とエネルギーを持っています。素晴らしい状態ですが、\n燃え尽き症候群を防ぐため、ワークライフバランスにも注意を払いましょう。")]

/-- `interpretations.get(level, "")` from `src/app.py` line 218:
Python `dict.get` with default `""` — an unmapped key yields the empty
string, it does not raise. -/
def interpretationsGetD (level : String) : String :=
  (interpretations.lookup level).getD ""

/-- `get_interpretation` from `src/app.py` (lines 180-218): takes the
scores dict, bands the total score, and looks the label up in
`interpretations` with default `""`. -/
def get_interpretation (scores : ScoreReport) : String :=
  interpretationsGetD (get_score_level scores.total).1

/-- The six level labels, in band order (first components of the
`get_score_level` results). -/
def levelLabels : List String :=
  ["非常に低い", "低い", "やや低い", "平均的", "高い", "非常に高い"]

/-- Modelled from the spec: the operation `validateComplete` of §4.1
("Returns true iff all 9 fixed ids are present and each value lies in
[0,6]") does not exist in `src/app.py` — the source never validates a
response set (the UI sliders make invalid values unreachable).  The
definition follows the spec's words. -/
def validateComplete (r : PyDict) : Bool :=
  decide (∀ i ∈ ids9, i ∈ r.keys) &&
    decide (∀ i ∈ r.keys, 0 ≤ r.val i ∧ r.val i ≤ 6)

/-! ## Concrete response sets used as test inputs -/

/-- All nine items answered 3. -/
def allThreesDict : PyDict := ⟨ids9, fun _ => 3⟩

/-- Same mapping as `allThreesDict` on the nine keys, but a different
valuation off the key set (dict equality only sees the keys). -/
def allThreesDictB : PyDict := ⟨ids9, fun i => if i ≤ 9 then 3 else 99⟩

/-- The mixed example `{1:6, 2:6, 3:0, 4:0, 5:6, 6:0, 7:0, 8:0, 9:0}`. -/
def mixedDict : PyDict :=
  ⟨ids9, fun i => if i = 1 ∨ i = 2 ∨ i = 5 then 6 else 0⟩

/-- All nine ids present, but item 1 answered 7, outside [0,6]. -/
def outOfRangeDict : PyDict := ⟨ids9, fun i => if i = 1 then 7 else 3⟩

/-- Item 9 missing, the rest answered 3. -/
def missingDict : PyDict := ⟨{1, 2, 3, 4, 5, 6, 7, 8}, fun _ => 3⟩

/-! ## Helper lemmas -/

lemma mem_ids9 (i : ℕ) : i ∈ ids9 ↔ 1 ≤ i ∧ i ≤ 9 := by
  constructor
  · intro h; fin_cases h <;> decide
  · rintro ⟨h1, h9⟩; interval_cases i <;> decide

lemma ids9_card : ids9.card = 9 := rfl

lemma sum_ids9 (f : ℕ → ℚ) :
    (∑ i in ids9, f i) =
      f 1 + f 2 + f 3 + f 4 + f 5 + f 6 + f 7 + f 8 + f 9 := by
  show (∑ i in ({1, 2, 3, 4, 5, 6, 7, 8, 9} : Finset ℕ), f i) = _
  rw [Finset.sum_insert (by decide), Finset.sum_insert (by decide),
    Finset.sum_insert (by decide), Finset.sum_insert (by decide),
    Finset.sum_insert (by decide), Finset.sum_insert (by decide),
    Finset.sum_insert (by decide), Finset.sum_insert (by decide),
    Finset.sum_singleton]
  ring

/-- On a dict whose keys are exactly the nine item ids, all accesses
succeed and `calculate_scores` returns the three group means and the
overall mean. -/
lemma calc_complete (d : PyDict) (hk : d.keys = ids9) :
    calculate_scores d =
      some { vigor := (d.val 1 + d.val 2 + d.val 5) / 3
             dedication := (d.val 3 + d.val 4 + d.val 7) / 3
             absorption := (d.val 6 + d.val 8 + d.val 9) / 3
             total := (d.val 1 + d.val 2 + d.val 3 + d.val 4 + d.val 5 +
               d.val 6 + d.val 7 + d.val 8 + d.val 9) / 9 } := by
  simp only [calculate_scores, PyDict.get?, PyDict.valuesSum, PyDict.len,
    hk, ids9_card, sum_ids9]
  norm_num [ids9, Finset.mem_insert]

/-! ## Claim theorems -/

/-- C1: on a complete response set (keys exactly 1..9, each value an
integer in [0,6]), `calculate_scores` returns the mean of items
{1,2,5} as the Vigor score, of {3,4,7} as Dedication, of {6,8,9} as
Absorption, and the mean of all nine as the overall score, with exact
rational arithmetic (no rounding). -/
theorem C1_complete_means (d : PyDict) (hk : d.keys = ids9)
    (_hv : ∀ i ∈ d.keys, ∃ n : ℕ, n ≤ 6 ∧ d.val i = (n : ℚ)) :
    calculate_scores d =
      some { vigor := (d.val 1 + d.val 2 + d.val 5) / 3
             dedication := (d.val 3 + d.val 4 + d.val 7) / 3
             absorption := (d.val 6 + d.val 8 + d.val 9) / 3
             total := (d.val 1 + d.val 2 + d.val 3 + d.val 4 + d.val 5 +
               d.val 6 + d.val 7 + d.val 8 + d.val 9) / 9 } :=
  calc_complete d hk

/-- Witness for C1 at the all-threes response set. -/
theorem C1_witness :
    calculate_scores allThreesDict =
      some { vigor := 3, dedication := 3, absorption := 3, total := 3 } := by
  have h := C1_complete_means allThreesDict rfl
    (fun i _ => ⟨3, by norm_num, by norm_num [allThreesDict]⟩)
  norm_num [allThreesDict] at h
  exact h

/-- C2: `get_score_level` realises the six bands with upper bound
exclusive except the top bin: score < 1 is 非常に低い (Very Low),
1 ≤ score < 2.5 is 低い (Low), 2.5 ≤ score < 3.5 is やや低い
(Somewhat Low), 3.5 ≤ score < 4.5 is 平均的 (Average),
4.5 ≤ score < 5.5 is 高い (High), and score ≥ 5.5 is 非常に高い
(Very High); in particular 1.0 ↦ Low, 3.5 ↦ Average, 5.5 ↦ Very High. -/
theorem C2_banding (s : ℚ) :
    (s < 1 → (get_score_level s).1 = "非常に低い") ∧
    (1 ≤ s → s < 5/2 → (get_score_level s).1 = "低い") ∧
    (5/2 ≤ s → s < 7/2 → (get_score_level s).1 = "やや低い") ∧
    (7/2 ≤ s → s < 9/2 → (get_score_level s).1 = "平均的") ∧
    (9/2 ≤ s → s < 11/2 → (get_score_level s).1 = "高い") ∧
    (11/2 ≤ s → (get_score_level s).1 = "非常に高い") := by
  unfold get_score_level
  refine ⟨?_, ?_, ?_, ?_, ?_, ?_⟩ <;> intros <;> split_ifs <;>
    first | rfl | linarith

/-- Witness for C2 at the three boundary scores named by the claim. -/
theorem C2_witness :
    (get_score_level 1).1 = "低い" ∧ (get_score_level (7/2)).1 = "平均的" ∧
      (get_score_level (11/2)).1 = "非常に高い" :=
  ⟨(C2_banding 1).2.1 (by norm_num) (by norm_num),
   (C2_banding (7/2)).2.2.2.1 (by norm_num) (by norm_num),
   (C2_banding (11/2)).2.2.2.2.2 (by norm_num)⟩

/-- Counterexample to C3: on `outOfRangeDict` all nine ids are present
but item 1 has the out-of-range value 7, yet `calculate_scores`
signals no error and happily returns a score report — the code never
checks the value range. -/
theorem C3_counterexample :
    calculate_scores outOfRangeDict =
      some { vigor := 13/3, dedication := 3, absorption := 3,
             total := 31/9 } := by
  have h := calc_complete outOfRangeDict rfl
  norm_num [outOfRangeDict] at h
  exact h

/-- C3 amended: only the missing-id half holds — if any of ids 1..9 is
absent, `calculate_scores` raises KeyError (no report is produced and
no value is substituted); present values outside [0,6] are not
detected. -/
theorem C3_amended_missing_id (r : PyDict) (i : ℕ) (hi : i ∈ ids9)
    (hk : i ∉ r.keys) : calculate_scores r = none := by
  fin_cases hi <;> simp [calculate_scores, PyDict.get?, hk]

/-- Witness for the amended C3: dropping id 9 yields no report. -/
theorem C3_witness : calculate_scores missingDict = none :=
  C3_amended_missing_id missingDict 9 (by decide) (by decide)

/-- C4: `validateComplete` returns `true` exactly when every id
1..9 is a key and every stored value lies in [0,6]; any missing id
or out-of-range value makes it `false` (it is a pure function, so it
has no side effects).  The operation is modelled from the spec, as it
does not appear in `src/app.py`. -/
theorem C4_validateComplete (r : PyDict) :
    validateComplete r = true ↔
      ((∀ i : ℕ, 1 ≤ i ∧ i ≤ 9 → i ∈ r.keys) ∧
       (∀ i ∈ r.keys, 0 ≤ r.val i ∧ r.val i ≤ 6)) := by
  unfold validateComplete
  simp only [Bool.and_eq_true, decide_eq_true_eq]
  constructor
  · rintro ⟨ha, hb⟩
    exact ⟨fun i hi => ha i ((mem_ids9 i).mpr hi), hb⟩
  · rintro ⟨ha, hb⟩
    exact ⟨fun i hi => ha i ((mem_ids9 i).mp hi), hb⟩

/-- Witness for C4: the all-threes set validates. -/
theorem C4_witness : validateComplete allThreesDict = true :=
  (C4_validateComplete allThreesDict).mpr
    ⟨fun i hi => (mem_ids9 i).mpr hi,
     fun i _ => ⟨by norm_num [allThreesDict], by norm_num [allThreesDict]⟩⟩

/-- C5: on a complete response set with integer values in [0,6], all
four scores returned by `calculate_scores` lie in [0,6]. -/
theorem C5_scores_in_range (d : PyDict) (hk : d.keys = ids9)
    (hv : ∀ i ∈ d.keys, ∃ n : ℕ, n ≤ 6 ∧ d.val i = (n : ℚ)) :
    ∃ r : ScoreReport, calculate_scores d = some r ∧
      0 ≤ r.vigor ∧ r.vigor ≤ 6 ∧ 0 ≤ r.dedication ∧ r.dedication ≤ 6 ∧
      0 ≤ r.absorption ∧ r.absorption ≤ 6 ∧ 0 ≤ r.total ∧ r.total ≤ 6 := by
  have hb : ∀ i ∈ ids9, 0 ≤ d.val i ∧ d.val i ≤ 6 := by
    intro i hi
    obtain ⟨n, hn6, hni⟩ := hv i (by rw [hk]; exact hi)
    refine ⟨hni ▸ n.cast_nonneg, hni ▸ ?_⟩
    exact_mod_cast hn6
  obtain ⟨l1, u1⟩ := hb 1 (by decide)
  obtain ⟨l2, u2⟩ := hb 2 (by decide)
  obtain ⟨l3, u3⟩ := hb 3 (by decide)
  obtain ⟨l4, u4⟩ := hb 4 (by decide)
  obtain ⟨l5, u5⟩ := hb 5 (by decide)
  obtain ⟨l6, u6⟩ := hb 6 (by decide)
  obtain ⟨l7, u7⟩ := hb 7 (by decide)
  obtain ⟨l8, u8⟩ := hb 8 (by decide)
  obtain ⟨l9, u9⟩ := hb 9 (by decide)
  refine ⟨_, calc_complete d hk, ?_, ?_, ?_, ?_, ?_, ?_, ?_, ?_⟩ <;>
    dsimp only <;> linarith

/-- Witness for C5 at the all-threes response set. -/
theorem C5_witness :
    ∃ r : ScoreReport, calculate_scores allThreesDict = some r ∧
      0 ≤ r.vigor ∧ r.vigor ≤ 6 ∧ 0 ≤ r.dedication ∧ r.dedication ≤ 6 ∧
      0 ≤ r.absorption ∧ r.absorption ≤ 6 ∧ 0 ≤ r.total ∧ r.total ≤ 6 :=
  C5_scores_in_range allThreesDict rfl
    (fun i _ => ⟨3, by norm_num, by norm_num [allThreesDict]⟩)

/-- Counterexample to C6: for a level outside the six-element set the
lookup does not abort — `interpretations.get(level, "")` silently
returns the recoverable empty string. -/
theorem C6_counterexample :
    interpretations.lookup "unknown" = none ∧
      interpretationsGetD "unknown" = "" := by
  constructor <;> rfl

/-- C6 amended: `interpretationsGetD` is a pure lookup that maps each
of the six level labels to its static non-empty narrative string, but
an unmapped level yields the empty string as a silent default instead
of aborting. -/
theorem C6_amended :
    (∀ lvl ∈ levelLabels,
       (interpretations.lookup lvl).isSome = true ∧
         interpretationsGetD lvl ≠ "") ∧
    (∀ lvl : String, lvl ∉ levelLabels → interpretationsGetD lvl = "") := by
  constructor
  · decide
  · intro lvl h
    simp only [levelLabels, List.mem_cons, List.not_mem_nil, or_false,
      not_or] at h
    obtain ⟨h1, h2, h3, h4, h5, h6⟩ := h
    simp only [interpretationsGetD, interpretations, List.lookup,
      beq_eq_false_iff_ne.mpr h1, beq_eq_false_iff_ne.mpr h2,
      beq_eq_false_iff_ne.mpr h3, beq_eq_false_iff_ne.mpr h4,
      beq_eq_false_iff_ne.mpr h5, beq_eq_false_iff_ne.mpr h6,
      Option.getD_none]

/-- Witness for the amended C6: a mapped and an unmapped label. -/
theorem C6_witness :
    interpretationsGetD "平均的" ≠ "" ∧ interpretationsGetD "Average" = "" :=
  ⟨(C6_amended.1 "平均的" (by decide)).2, C6_amended.2 "Average" (by decide)⟩

/-- C7: `calculate_scores` is pure and deterministic — two dicts that
are equal as mappings (same keys, same values on those keys) give
identical results, and `get_score_level` gives identical labels for
identical scores. -/
theorem C7_pure (r1 r2 : PyDict) (hk : r1.keys = r2.keys)
    (hv : ∀ i ∈ r1.keys, r1.val i = r2.val i) (s1 s2 : ℚ) (hs : s1 = s2) :
    calculate_scores r1 = calculate_scores r2 ∧
      get_score_level s1 = get_score_level s2 := by
  have hget : ∀ i, r1.get? i = r2.get? i := by
    intro i
    unfold PyDict.get?
    rw [hk]
    by_cases h : i ∈ r2.keys
    · rw [if_pos h, if_pos h, hv i (by rw [hk]; exact h)]
    · rw [if_neg h, if_neg h]
  have hsum : r1.valuesSum = r2.valuesSum := by
    unfold PyDict.valuesSum
    rw [hk]
    exact Finset.sum_congr rfl fun i hi => hv i (by rw [hk]; exact hi)
  have hlen : r1.len = r2.len := by unfold PyDict.len; rw [hk]
  refine ⟨?_, by rw [hs]⟩
  simp only [calculate_scores, hget, hsum, hlen]

/-- Witness for C7: two dicts agreeing on the keys but differing off
them score identically. -/
theorem C7_witness :
    calculate_scores allThreesDict = calculate_scores allThreesDictB ∧
      get_score_level 2 = get_score_level 2 :=
  C7_pure allThreesDict allThreesDictB rfl (by decide) 2 2 rfl

/-- C8: the mixed example {1:6,2:6,3:0,4:0,5:6,6:0,7:0,8:0,9:0} scores
Vigor 6 (非常に高い / Very High), Dedication 0 and Absorption 0
(非常に低い / Very Low), and overall 2 (低い / Low). -/
theorem C8_mixed_example :
    calculate_scores mixedDict =
      some { vigor := 6, dedication := 0, absorption := 0, total := 2 } ∧
    (get_score_level 6).1 = "非常に高い" ∧
    (get_score_level 0).1 = "非常に低い" ∧
    (get_score_level 2).1 = "低い" := by
  refine ⟨?_, by norm_num [get_score_level], by norm_num [get_score_level],
    by norm_num [get_score_level]⟩
  have h := calc_complete mixedDict rfl
  norm_num [mixedDict] at h
  exact h

/-- C9: on a complete response set the overall score equals the mean
of the three subscale scores, since the three groups of three items
partition the nine items. -/
theorem C9_overall_is_mean_of_subscales (d : PyDict) (hk : d.keys = ids9) :
    ∃ r : ScoreReport, calculate_scores d = some r ∧
      r.total = (r.vigor + r.dedication + r.absorption) / 3 := by
  refine ⟨_, calc_complete d hk, ?_⟩
  dsimp only
  ring

/-- Witness for C9 at the all-threes response set. -/
theorem C9_witness :
    ∃ r : ScoreReport, calculate_scores allThreesDict = some r ∧
      r.total = (r.vigor + r.dedication + r.absorption) / 3 :=
  C9_overall_is_mean_of_subscales allThreesDict rfl

/-- C10: the banding function is total — every rational score is
mapped to exactly one of the six fixed (label, color) pairs; every
score below 1 (negatives included) gives the Very Low pair and every
score at or above 5.5 (values above 6 included) the Very High pair. -/
theorem C10_banding_total (s : ℚ) :
    (get_score_level s = ("非常に低い", "#e74c3c") ∨
     get_score_level s = ("低い", "#e67e22") ∨
     get_score_level s = ("やや低い", "#f39c12") ∨
     get_score_level s = ("平均的", "#3498db") ∨
     get_score_level s = ("高い", "#27ae60") ∨
     get_score_level s = ("非常に高い", "#16a085")) ∧
    (s < 1 → get_score_level s = ("非常に低い", "#e74c3c")) ∧
    (11/2 ≤ s → get_score_level s = ("非常に高い", "#16a085")) := by
  unfold get_score_level
  refine ⟨?_, ?_, ?_⟩
  · split_ifs <;> simp
  · intro h; rw [if_pos h]
  · intro h; split_ifs <;> first | rfl | linarith

/-- Witness for C10 at scores outside [0,6]. -/
theorem C10_witness :
    get_score_level (-1) = ("非常に低い", "#e74c3c") ∧
      get_score_level 100 = ("非常に高い", "#16a085") :=
  ⟨(C10_banding_total (-1)).2.1 (by norm_num),
   (C10_banding_total 100).2.2 (by norm_num)⟩
